import Mathlib

/-!
Shallow embedding of the voice-transcription controller in `src/app.js`
(class `VoiceTranscriptionApp`).  DOM-only cosmetics (icons, button labels,
waveform/timer CSS classes, the progress bar) are omitted; every field and
branch that the verified claims depend on is translated directly from the
source.  Time is modelled in milliseconds as `Nat`; asynchronous callbacks
(the `setTimeout` auto-stop, the `MediaRecorder.onstop` handler, the model
load resolution) are explicit events applied to the state.
-/

namespace Speak

/-- The `#transcriptionText` DOM element: its text content and whether it
still carries the `empty` (placeholder) CSS class. -/
structure Display where
  textContent : String
  emptyClass : Bool
deriving DecidableEq, Repr

/-- The options object passed to the transcriber in `processAudio`
(src/app.js lines 197-203). -/
structure TranscribeOptions where
  language : Option String
  task : String
  chunk_length_s : Nat
  stride_length_s : Nat
  return_timestamps : Bool
deriving DecidableEq, Repr

/-- `processAudio` builds its options from `languageSelect.value`:
`language: value === 'auto' ? null : value`, task `'transcribe'`,
`chunk_length_s: 30`, `stride_length_s: 5`, `return_timestamps: false`. -/
def transcribeOptions (langSelect : String) : TranscribeOptions :=
  { language := if langSelect = "auto" then none else some langSelect
    task := "transcribe"
    chunk_length_s := 30
    stride_length_s := 5
    return_timestamps := false }

/-- Outcome of the asynchronous capture setup inside `startRecording`:
`getUserMedia` may reject (permission denied); after the stream is acquired,
constructing or starting the `MediaRecorder` may still throw (both are
caught by the same `catch` block at lines 158-161); or everything succeeds. -/
inductive CaptureOutcome
  | permissionDenied
  | recorderInitFails
  | ok
deriving DecidableEq, Repr

/-- Resolution of `this.transcriber(audioUrl, ...)` inside `processAudio`:
success carries `result.text` (possibly absent), failure carries the error
message. -/
inductive TranscribeResult
  | ok (text : Option String)
  | err (msg : String)
deriving DecidableEq, Repr

/-- Resolution of the `pipeline(...)` promise inside the model loader:
success yields a capability (identified by a `Nat` handle), or it rejects. -/
inductive LoadResult
  | ok (handle : Nat)
  | failed
deriving DecidableEq, Repr

/-- The mutable fields of `VoiceTranscriptionApp` relevant to the claims.
`streamsHeld` counts capture streams acquired via `getUserMedia` whose
tracks have not been stopped; `timeouts` holds the absolute fire times of
pending auto-stop `setTimeout` callbacks (the code never clears them);
`mediaRecorderExists` is `this.mediaRecorder !== null`. -/
structure AppState where
  transcriber : Option Nat
  isRecording : Bool
  isModelLoading : Bool
  audioChunks : List Nat
  startTime : Option Nat
  timeouts : List Nat
  mediaRecorderExists : Bool
  streamsHeld : Nat
  display : Display
  statusKind : String
  errorMsg : Option String
deriving DecidableEq, Repr

/-- The message shown by `startRecording` when the transcriber is null
(line 101). -/
def modelNotLoadedMsg : String := "AI model not loaded yet. Please wait..."

/-- The message shown by the catch block of `startRecording` (line 160). -/
def captureFailedMsg : String :=
  "Failed to start recording. Please ensure microphone permission is granted."

/-- `startRecording` (src/app.js lines 98-162).  Guard: a null transcriber
shows an error and returns before anything else.  Otherwise `hideError`,
then `getUserMedia`; on its rejection the catch block only shows an error.
If the stream is acquired but the recorder setup throws, the catch block
likewise only shows an error: the acquired stream is never released.  On
success the chunk buffer is reset, the recorder starts, and an auto-stop
timeout is scheduled 300000 ms ahead. -/
def startRecording (now : Nat) (cap : CaptureOutcome) (s : AppState) : AppState :=
  if s.transcriber = none then
    { s with errorMsg := some modelNotLoadedMsg }
  else
    match cap with
    | CaptureOutcome.permissionDenied =>
        { s with errorMsg := some captureFailedMsg }
    | CaptureOutcome.recorderInitFails =>
        { s with streamsHeld := s.streamsHeld + 1, errorMsg := some captureFailedMsg }
    | CaptureOutcome.ok =>
        { s with errorMsg := none,
                 streamsHeld := s.streamsHeld + 1,
                 mediaRecorderExists := true,
                 audioChunks := [],
                 isRecording := true,
                 statusKind := "recording",
                 startTime := some now,
                 timeouts := s.timeouts ++ [now + 300000] }

/-- `stopRecording` (src/app.js lines 164-184): guarded by
`this.mediaRecorder && this.isRecording`; flips the flag and moves the
status to `processing`.  The pending auto-stop timeout is NOT cleared.
The `onstop` handler runs asynchronously afterwards (`onstopHandler`). -/
def stopRecording (s : AppState) : AppState :=
  if s.mediaRecorderExists && s.isRecording then
    { s with isRecording := false, statusKind := "processing" }
  else s

/-- The `ondataavailable` handler (lines 122-126): appends a fragment to
`audioChunks` whenever its size is positive. -/
def ondataavailable (size : Nat) (s : AppState) : AppState :=
  if size > 0 then { s with audioChunks := s.audioChunks ++ [size] } else s

/-- `result.text || 'No speech detected'` (line 207): an absent or empty
text field is replaced by the literal fallback string. -/
def transcriptionFromResult (t : Option String) : String :=
  match t with
  | none => "No speech detected"
  | some txt => if txt = "" then "No speech detected" else txt

/-- `displayTranscription` (lines 223-226): sets the text content and
removes the `empty` class. -/
def displayTranscription (text : String) : Display :=
  { textContent := text, emptyClass := false }

/-- `processAudio` (lines 186-221), collapsed over its internal await:
on success, displays `result.text || 'No speech detected'` and moves the
status to `completed`; on failure shows the error and moves to `error`. -/
def processAudio (r : TranscribeResult) (s : AppState) : AppState :=
  match r with
  | TranscribeResult.ok t =>
      { s with display := displayTranscription (transcriptionFromResult t),
               statusKind := "completed" }
  | TranscribeResult.err m =>
      { s with errorMsg := some ("Transcription failed: " ++ m),
               statusKind := "error" }

/-- The `mediaRecorder.onstop` handler (lines 128-132): builds the blob,
awaits `processAudio`, and only then stops the stream tracks (the single
place in the source where the capture stream is released). -/
def onstopHandler (r : TranscribeResult) (s : AppState) : AppState :=
  let s1 := processAudio r s
  { s1 with streamsHeld := s1.streamsHeld - 1 }

/-- The body of the `setTimeout` scheduled in `startRecording`
(lines 152-156): `if (this.isRecording) this.stopRecording()`. -/
def autoStopCallback (s : AppState) : AppState :=
  if s.isRecording then stopRecording s else s

/-- `toggleRecording` (lines 90-96): the record-button click handler. -/
def toggleRecording (now : Nat) (cap : CaptureOutcome) (s : AppState) : AppState :=
  if !s.isRecording then startRecording now cap s else stopRecording s

/-- `copyToClipboard` (lines 228-251): returns the text written to the
clipboard, or `none` when the guard
`if (!text || classList.contains('empty')) return;` suppresses the call. -/
def copyToClipboard (d : Display) : Option String :=
  if d.textContent = "" then none
  else if d.emptyClass then none
  else some d.textContent

/-- `initializeModel` (lines 53-79), collapsed over the awaited pipeline
call: on success installs the capability and reports ready; on failure
shows the error message and reports the error status. -/
def initModel (r : LoadResult) (s : AppState) : AppState :=
  let s0 := { s with statusKind := "loading" }
  match r with
  | LoadResult.ok n => { s0 with transcriber := some n, statusKind := "ready" }
  | LoadResult.failed =>
      { s0 with errorMsg := some "Failed to load AI model. Please refresh and try again.",
                statusKind := "error" }

/-- `onModelChange` (lines 286-295): `if (this.isModelLoading) return;`
then sets the flag, discards the current transcriber, awaits
`initializeModel`, and clears the flag.  The only guard is the
`isModelLoading` flag: nothing checks `isRecording` or the processing
status, and no code in the source disables the model selector. -/
def onModelChange (r : LoadResult) (s : AppState) : AppState :=
  if s.isModelLoading then s
  else
    let s1 := { s with isModelLoading := true, transcriber := none }
    let s2 := initModel r s1
    { s2 with isModelLoading := false }

/-- `initializeTheme` reads `localStorage.getItem('theme') || 'light'`
(line 298): `getItem` yields `null` when unset; `||` falls through to
`'light'` exactly when the stored value is falsy, i.e. absent or the
empty string.  Any other stored string is returned verbatim. -/
def getTheme (stored : Option String) : String :=
  match stored with
  | none => "light"
  | some s => if s = "" then "light" else s

/-- `toggleTheme` (lines 303-310): flips the current theme and persists it. -/
def toggleTheme (current : String) : String :=
  if current = "light" then "dark" else "light"

/-- Timed events delivered to the app by the environment. -/
inductive Event
  | click (cap : CaptureOutcome)
  | onstopDone (r : TranscribeResult)
  | modelChange (r : LoadResult)
deriving Repr

/-- Fire every pending auto-stop timeout due at or before `now`, in order,
then remove them from the pending list. -/
def fireDue (now : Nat) (s : AppState) : AppState :=
  let due := s.timeouts.filter (fun t => decide (t ≤ now))
  let rest := s.timeouts.filter (fun t => decide (now < t))
  due.foldl (fun st _ => autoStopCallback st) { s with timeouts := rest }

/-- Apply one event at its arrival time. -/
def applyEvent (now : Nat) (e : Event) (s : AppState) : AppState :=
  match e with
  | Event.click cap => toggleRecording now cap s
  | Event.onstopDone r => onstopHandler r s
  | Event.modelChange r => onModelChange r s

/-- One scheduler step: fire the timeouts due by the event time, then the
event itself. -/
def step (s : AppState) (te : Nat × Event) : AppState :=
  applyEvent te.1 te.2 (fireDue te.1 s)

/-- Run a time-ordered trace of events. -/
def run (events : List (Nat × Event)) (s : AppState) : AppState :=
  events.foldl step s

/-- The field values set by the constructor (lines 9-16), with an empty
placeholder display. -/
def initialState : AppState :=
  { transcriber := none
    isRecording := false
    isModelLoading := false
    audioChunks := []
    startTime := none
    timeouts := []
    mediaRecorderExists := false
    streamsHeld := 0
    display := { textContent := "", emptyClass := true }
    statusKind := "loading"
    errorMsg := none }

/-- The state after the initial model load succeeds. -/
def readyState : AppState := initModel (LoadResult.ok 1) initialState

/-- A state displaying a previous transcription, with the model loaded. -/
def displayingState : AppState :=
  { readyState with display := { textContent := "hello world", emptyClass := false } }

/-- A state in the middle of a recording, holding capability handle 5. -/
def recordingState : AppState :=
  { initialState with transcriber := some 5, isRecording := true,
                      mediaRecorderExists := true, streamsHeld := 1,
                      statusKind := "recording", startTime := some 0,
                      timeouts := [300000] }

/-- The transcriber reference produced by a finished load. -/
def loadedHandle : LoadResult → Option Nat
  | LoadResult.ok n => some n
  | LoadResult.failed => none

/-- Events for the stale-timer scenario: a recording started at 0 ms,
stopped manually at 10000 ms, its transcription resolving at 10500 ms, and
a second recording started at 20000 ms. -/
def c3Trace : List (Nat × Event) :=
  [ (0, Event.click CaptureOutcome.ok),
    (10000, Event.click CaptureOutcome.ok),
    (10500, Event.onstopDone (TranscribeResult.ok (some "hello"))),
    (20000, Event.click CaptureOutcome.ok) ]

/-- The state after the first, never-cleared auto-stop timeout fires at
300000 ms. -/
def c3Final : AppState := fireDue 300000 (run c3Trace readyState)

/-- Claim C1 counterexample: starting a new recording from a state that
displays a previous result does begin capture (the recording flag is set
and the fragment buffer is reset), yet the displayed resultText is NOT
cleared: it still reads `hello world` when capture begins. -/
theorem C1_counterexample :
    (startRecording 0 CaptureOutcome.ok displayingState).isRecording = true
    ∧ (startRecording 0 CaptureOutcome.ok displayingState).audioChunks = []
    ∧ (startRecording 0 CaptureOutcome.ok displayingState).display.textContent
      = "hello world"
    ∧ "hello world" ≠ "" := by
  refine ⟨rfl, rfl, rfl, ?_⟩
  decide

/-- Claim C1 amended: starting a new recording resets the fragment buffer
to empty before capture begins, but resultText is not cleared: the display
is retained verbatim until a later transcription overwrites it. -/
theorem C1_amended_reset (now h : Nat) (s : AppState)
    (hm : s.transcriber = some h) :
    (startRecording now CaptureOutcome.ok s).audioChunks = []
    ∧ (startRecording now CaptureOutcome.ok s).display = s.display
    ∧ (startRecording now CaptureOutcome.ok s).isRecording = true := by
  simp [startRecording, hm]

/-- Claim C1 amended witness: starting over a displayed result empties the
buffer and keeps the old display. -/
theorem C1_amended_reset_witness :
    (startRecording 0 CaptureOutcome.ok displayingState).audioChunks = []
    ∧ (startRecording 0 CaptureOutcome.ok displayingState).display
      = displayingState.display
    ∧ (startRecording 0 CaptureOutcome.ok displayingState).isRecording = true :=
  C1_amended_reset 0 1 displayingState rfl

/-- Claim C2 counterexample: a model-change event arriving mid-recording
(recording flag set, no load in flight) is not ignored: a failed reload
leaves the capability discarded, and a successful reload replaces it. -/
theorem C2_counterexample :
    recordingState.isRecording = true
    ∧ recordingState.isModelLoading = false
    ∧ recordingState.transcriber = some 5
    ∧ (onModelChange LoadResult.failed recordingState).transcriber = none
    ∧ (onModelChange (LoadResult.ok 7) recordingState).transcriber = some 7 :=
  ⟨rfl, rfl, rfl, rfl, rfl⟩

/-- Claim C2 amended: a model-change event is ignored only while a load is
already in flight; the recording and processing states do not block it —
whenever the loading flag is clear the event discards the current
capability and installs the load result, while the recording flag itself
is untouched. -/
theorem C2_amended_only_loading_blocks (r : LoadResult) (s : AppState)
    (h : s.isModelLoading = false) :
    (onModelChange r s).transcriber = loadedHandle r
    ∧ (onModelChange r s).isRecording = s.isRecording
    ∧ (onModelChange r s).isModelLoading = false := by
  cases r <;> simp [onModelChange, initModel, loadedHandle, h]

/-- Claim C2 amended witness: a model change during a recording swaps the
capability to the newly loaded handle without stopping the recording. -/
theorem C2_amended_only_loading_blocks_witness :
    (onModelChange (LoadResult.ok 7) recordingState).transcriber
      = loadedHandle (LoadResult.ok 7)
    ∧ (onModelChange (LoadResult.ok 7) recordingState).isRecording
      = recordingState.isRecording
    ∧ (onModelChange (LoadResult.ok 7) recordingState).isModelLoading = false :=
  C2_amended_only_loading_blocks (LoadResult.ok 7) recordingState rfl

/-- Claim C3: the auto-stop timeout of the first recording is never
cleared, so it fires during the second recording.  After the trace
(start at 0, manual stop at 10000, second start at 20000), the recording
begun at 20000 ms is still active with both timers pending; when the stale
timer fires at 300000 ms — only 280000 ms after this recording began — the
recording is stopped and moved to `processing`, while its own ceiling
timer (due at 320000 ms) is still pending.  This contradicts the claim
that auto-stop occurs exactly 300 s after the same recording started. -/
theorem C3_stale_timer_stops_early :
    (run c3Trace readyState).isRecording = true
    ∧ (run c3Trace readyState).startTime = some 20000
    ∧ (run c3Trace readyState).timeouts = [300000, 320000]
    ∧ c3Final.isRecording = false
    ∧ c3Final.statusKind = "processing"
    ∧ c3Final.startTime = some 20000
    ∧ c3Final.timeouts = [320000]
    ∧ 300000 - 20000 = 280000 :=
  ⟨rfl, rfl, rfl, rfl, rfl, rfl, rfl, rfl⟩

/-- Claim C5 counterexample: from a ready state holding no streams, an
error thrown after `getUserMedia` succeeded (between stream acquisition
and recorder start) is caught without releasing the stream: one stream
stays held, no recording is active, and the recorder was never started,
so the releasing onstop handler can never fire. -/
theorem C5_counterexample :
    readyState.streamsHeld = 0
    ∧ (startRecording 0 CaptureOutcome.recorderInitFails readyState).streamsHeld = 1
    ∧ (startRecording 0 CaptureOutcome.recorderInitFails readyState).isRecording
      = false
    ∧ (startRecording 0 CaptureOutcome.recorderInitFails readyState).mediaRecorderExists
      = false :=
  ⟨rfl, rfl, rfl, rfl⟩

/-- Claim C5 amended: the capture stream is released on the normal-stop and
auto-stop paths (the onstop handler stops the tracks after processing, so
the held-stream count returns to its pre-recording value), but on an error
path after the stream is acquired and before the recorder starts the
stream is not released: the count stays incremented. -/
theorem C5_amended_release (now h : Nat) (r : TranscribeResult) (s : AppState)
    (hm : s.transcriber = some h) :
    (onstopHandler r (stopRecording (startRecording now CaptureOutcome.ok s))).streamsHeld
      = s.streamsHeld
    ∧ (onstopHandler r (autoStopCallback (startRecording now CaptureOutcome.ok s))).streamsHeld
      = s.streamsHeld
    ∧ (startRecording now CaptureOutcome.recorderInitFails s).streamsHeld
      = s.streamsHeld + 1 := by
  cases r <;>
    simp [startRecording, stopRecording, autoStopCallback, onstopHandler,
      processAudio, hm]

/-- Claim C5 amended witness: a full record-stop-transcribe round trip from
the ready state returns the held-stream count to zero, while the
recorder-setup error path leaves one stream held. -/
theorem C5_amended_release_witness :
    (onstopHandler (TranscribeResult.ok (some "hi"))
        (stopRecording (startRecording 0 CaptureOutcome.ok readyState))).streamsHeld
      = readyState.streamsHeld
    ∧ (onstopHandler (TranscribeResult.ok (some "hi"))
        (autoStopCallback (startRecording 0 CaptureOutcome.ok readyState))).streamsHeld
      = readyState.streamsHeld
    ∧ (startRecording 0 CaptureOutcome.recorderInitFails readyState).streamsHeld
      = readyState.streamsHeld + 1 :=
  C5_amended_release 0 1 (TranscribeResult.ok (some "hi")) readyState rfl

/-- Claim C7 counterexample: a stored theme value outside the two-value
enum is returned verbatim, not replaced by the default. -/
theorem C7_counterexample :
    getTheme (some "purple") = "purple" ∧ getTheme (some "purple") ≠ "light" := by
  decide

/-- Claim C7 amended: the theme getter returns the stored value for
`light` and `dark` and falls back to the default `light` exactly when the
store is unset or holds the empty string; any other non-empty stored value
is returned verbatim (no validation against the enum). -/
theorem C7_theme_get_amended (s : String) (h : s ≠ "") :
    getTheme none = "light"
    ∧ getTheme (some "") = "light"
    ∧ getTheme (some "light") = "light"
    ∧ getTheme (some "dark") = "dark"
    ∧ getTheme (some s) = s := by
  refine ⟨rfl, rfl, rfl, rfl, ?_⟩
  simp [getTheme, h]

/-- Claim C7 amended witness: the round trip at the stored value `dark`. -/
theorem C7_theme_get_amended_witness :
    getTheme none = "light"
    ∧ getTheme (some "") = "light"
    ∧ getTheme (some "light") = "light"
    ∧ getTheme (some "dark") = "dark"
    ∧ getTheme (some "dark") = "dark" :=
  C7_theme_get_amended "dark" (by decide)

/-- Claim C4: dispatching userStartsRecording while the transcriber
capability is null is rejected: the result equals the input state with only
the "model not loaded" error message surfaced, so no capture is attempted
(the recording flag, the held-stream count and the status are unchanged). -/
theorem C4_start_rejected_without_model (now : Nat) (cap : CaptureOutcome)
    (s : AppState) (hm : s.transcriber = none) :
    startRecording now cap s = { s with errorMsg := some modelNotLoadedMsg }
    ∧ (startRecording now cap s).isRecording = s.isRecording
    ∧ (startRecording now cap s).streamsHeld = s.streamsHeld
    ∧ (startRecording now cap s).statusKind = s.statusKind := by
  simp [startRecording, hm]

/-- Claim C4 witness: the constructor state has a null transcriber, and
starting there is rejected as the theorem states. -/
theorem C4_start_rejected_without_model_witness :
    startRecording 0 CaptureOutcome.ok initialState
      = { initialState with errorMsg := some modelNotLoadedMsg }
    ∧ (startRecording 0 CaptureOutcome.ok initialState).isRecording
      = initialState.isRecording
    ∧ (startRecording 0 CaptureOutcome.ok initialState).streamsHeld
      = initialState.streamsHeld
    ∧ (startRecording 0 CaptureOutcome.ok initialState).statusKind
      = initialState.statusKind :=
  C4_start_rejected_without_model 0 CaptureOutcome.ok initialState rfl

/-- Claim C6: every transcription call maps the selected language `auto` to
a null language option and passes any other selection through verbatim, and
always uses task `transcribe`, a 30 second chunk length, a 5 second stride
length, and no timestamps. -/
theorem C6_transcribe_options (lang : String) :
    (transcribeOptions lang).language = (if lang = "auto" then none else some lang)
    ∧ (transcribeOptions lang).task = "transcribe"
    ∧ (transcribeOptions lang).chunk_length_s = 30
    ∧ (transcribeOptions lang).stride_length_s = 5
    ∧ (transcribeOptions lang).return_timestamps = false :=
  ⟨rfl, rfl, rfl, rfl, rfl⟩

/-- Claim C8: invoking the copy action while the displayed text is empty or
still carries the placeholder class performs no clipboard write. -/
theorem C8_copy_guard (d : Display)
    (h : d.textContent = "" ∨ d.emptyClass = true) :
    copyToClipboard d = none := by
  rcases h with h | h <;> simp [copyToClipboard, h]

/-- Claim C8 witness: copying the initial empty placeholder display writes
nothing. -/
theorem C8_copy_guard_witness :
    copyToClipboard { textContent := "", emptyClass := true } = none :=
  C8_copy_guard { textContent := "", emptyClass := true } (Or.inl rfl)

/-- Claim C9: when transcription succeeds with an absent or empty text
field, the displayed text becomes the literal string `No speech detected`,
the status still reaches the result-displaying stage (`completed`), and the
copy guard no longer treats the result as empty. -/
theorem C9_no_speech_fallback (s : AppState) :
    ((processAudio (TranscribeResult.ok none) s).display.textContent
        = "No speech detected"
      ∧ (processAudio (TranscribeResult.ok none) s).statusKind = "completed"
      ∧ copyToClipboard (processAudio (TranscribeResult.ok none) s).display
        = some "No speech detected")
    ∧ ((processAudio (TranscribeResult.ok (some "")) s).display.textContent
        = "No speech detected"
      ∧ (processAudio (TranscribeResult.ok (some "")) s).statusKind = "completed"
      ∧ copyToClipboard (processAudio (TranscribeResult.ok (some "")) s).display
        = some "No speech detected") :=
  ⟨⟨rfl, rfl, rfl⟩, rfl, rfl, rfl⟩

/-- Claim C10: while a model load is in flight (the `isModelLoading` flag
is set), every further model-change event is a complete no-op: the state is
returned unchanged, so the capability is not discarded and no second load
starts. -/
theorem C10_model_change_noop_while_loading (r : LoadResult) (s : AppState)
    (h : s.isModelLoading = true) :
    onModelChange r s = s := by
  simp [onModelChange, h]

/-- Claim C10 witness: a model-change event arriving while a load is in
flight leaves the state untouched. -/
theorem C10_model_change_noop_while_loading_witness :
    onModelChange LoadResult.failed { initialState with isModelLoading := true }
      = { initialState with isModelLoading := true } :=
  C10_model_change_noop_while_loading LoadResult.failed
    { initialState with isModelLoading := true } rfl

end Speak
